import Mathlib

/-!
Shallow embedding of `pggan/nets.py` (progressive-growing GAN generator and
discriminator) and proofs about its growth, alpha-control and forward-pass
logic.

Blocks and layers imported from `lib.blocks` / `lib.layers` are represented by
descriptor records holding the constructor arguments `nets.py` passes them, and
(for forward evaluation) by abstract tensor operations, since only their shape
behaviour is described by the specification.
-/

namespace PGGAN

/-- Errors raised by `nets.py` methods: `ValueError` for an out-of-range
alpha, `AttributeError` for the adapter-list precondition (and for reading a
missing attribute), `NameError` for reading an unbound local variable,
`IndexError` for an out-of-range list index. -/
inductive PGError where
  | valueError
  | attributeError
  | nameError
  | indexError
  deriving Repr, DecidableEq

/-- Constructor arguments of a `ProgressiveGeneratorBlock(prev_depth, new_depth,
..., is_first=...)` as instantiated by `Generator.__init__` / `add_block`. -/
structure GenBlockDesc where
  prev_depth : Nat
  new_depth : Nat
  is_first : Bool
  deriving Repr, DecidableEq

/-- Constructor arguments of a `toRGBBlock(depth, output_dim=...)`. -/
structure ToRGBDesc where
  depth : Nat
  output_dim : Nat
  deriving Repr, DecidableEq

/-- Constructor arguments of a `ProgressiveDiscriminatorBlock(new_depth,
prev_depth, ...)`: input depth `new_depth`, output depth `prev_depth`. -/
structure DisBlockDesc where
  new_depth : Nat
  prev_depth : Nat
  deriving Repr, DecidableEq

/-- Constructor arguments of a `fromRGBBlock(input_dim, depth, ...)`. -/
structure FromRGBDesc where
  input_dim : Nat
  depth : Nat
  deriving Repr, DecidableEq

/-- Mutable state of a `Generator` instance: the fields of `nets.py`'s
`Generator` that its methods read or write.  `toRGBLayers` mirrors the
attribute read by `get_output_size`; no method of the class ever assigns it
(the adapter list is stored under `toRGB_blocks`), which we model by an
`Option` field that stays `none`. -/
structure Generator where
  block_depths : List Nat
  first_depth : Nat
  latent_dim : Nat
  output_dim : Nat
  apply_pixel_norm : Bool
  blocks : List GenBlockDesc
  toRGB_blocks : List ToRGBDesc
  alpha : ℚ
  toRGBLayers : Option (List ToRGBDesc)
  deriving Repr, DecidableEq

/-- `Generator.__init__`: one depth `first_depth` in `block_depths`, an empty
growth-block list, one `toRGB` adapter for `first_depth`, `alpha = 0`. -/
def Generator.init (latent_dim first_depth : Nat) (apply_pixel_norm : Bool)
    (output_dim : Nat) : Generator where
  block_depths := [first_depth]
  first_depth := first_depth
  latent_dim := latent_dim
  output_dim := output_dim
  apply_pixel_norm := apply_pixel_norm
  blocks := []
  toRGB_blocks := [⟨first_depth, output_dim⟩]
  alpha := 0
  toRGBLayers := none

/-- `Generator.add_block(new_depth)`: read `prev_depth = block_depths[-1]`,
append `new_depth` to `block_depths`, append one
`ProgressiveGeneratorBlock(prev_depth, new_depth)` and one
`toRGBBlock(new_depth, output_dim)`. -/
def Generator.add_block (g : Generator) (new_depth : Nat) : Generator :=
  let prev_depth := g.block_depths.getLastD 0
  { g with
    block_depths := g.block_depths ++ [new_depth]
    blocks := g.blocks ++ [⟨prev_depth, new_depth, false⟩]
    toRGB_blocks := g.toRGB_blocks ++ [⟨new_depth, g.output_dim⟩] }

/-- `Generator.set_new_alpha(alpha)`: raise `ValueError` if `alpha < 0` or
`alpha > 1`; raise `AttributeError` if `toRGB_blocks` is empty; otherwise store
`alpha`.  The returned pair is the post-call object state and the raised
exception, if any (a raise leaves the object untouched). -/
def Generator.set_new_alpha (g : Generator) (alpha : ℚ) :
    Generator × Option PGError :=
  if alpha < 0 ∨ alpha > 1 then (g, some .valueError)
  else if g.toRGB_blocks.isEmpty then (g, some .attributeError)
  else ({ g with alpha := alpha }, none)

/-- `Generator.get_output_size`: reads `self.toRGBLayers`, an attribute that
no method assigns, computing `side = 4 * 2 ** (len(toRGBLayers) - 1)`. -/
def Generator.get_output_size (g : Generator) :
    Except PGError (Nat × Nat) :=
  match g.toRGBLayers with
  | none => .error .attributeError
  | some layers =>
      let side := 4 * 2 ^ (layers.length - 1)
      .ok (side, side)

/-- Mutable state of a `Discriminator` instance from `nets.py`. -/
structure Discriminator where
  depths : List Nat
  input_dim : Nat
  decision_layer_size : Nat
  apply_minibatch_norm : Bool
  blocks : List DisBlockDesc
  fromRGB_blocks : List FromRGBDesc
  alpha : ℚ
  deriving Repr, DecidableEq

/-- `Discriminator.__init__`: one depth `last_depth` in `depths`, an empty
growth-block list, one `fromRGB` adapter `fromRGBBlock(input_dim, last_depth)`,
`alpha = 0`. -/
def Discriminator.init (last_depth : Nat) (decision_layer_size : Nat)
    (apply_minibatch_norm : Bool) (input_dim : Nat) : Discriminator where
  depths := [last_depth]
  input_dim := input_dim
  decision_layer_size := decision_layer_size
  apply_minibatch_norm := apply_minibatch_norm
  blocks := []
  fromRGB_blocks := [⟨input_dim, last_depth⟩]
  alpha := 0

/-- `Discriminator.add_block(new_depth)`: read `prev_depth = depths[-1]`,
append `new_depth` to `depths`, append one
`ProgressiveDiscriminatorBlock(new_depth, prev_depth)` and one
`fromRGBBlock(input_dim, new_depth)`. -/
def Discriminator.add_block (d : Discriminator) (new_depth : Nat) :
    Discriminator :=
  let prev_depth := d.depths.getLastD 0
  { d with
    depths := d.depths ++ [new_depth]
    blocks := d.blocks ++ [⟨new_depth, prev_depth⟩]
    fromRGB_blocks := d.fromRGB_blocks ++ [⟨d.input_dim, new_depth⟩] }

/-- `Discriminator.set_new_alpha(alpha)`: same shape as the generator's,
guarding on `fromRGB_blocks` being empty. -/
def Discriminator.set_new_alpha (d : Discriminator) (alpha : ℚ) :
    Discriminator × Option PGError :=
  if alpha < 0 ∨ alpha > 1 then (d, some .valueError)
  else if d.fromRGB_blocks.isEmpty then (d, some .attributeError)
  else ({ d with alpha := alpha }, none)

/-- Python's `lst[-2]`: the second-to-last element, when it exists. -/
def penult {α : Type} (l : List α) : Option α := l.reverse.get? 1

/-- The generator's optional final activation (`generationActivation`):
identity when `None`. -/
def applyActivation {T : Type} (act : Option (T → T)) (x : T) : T :=
  match act with
  | some f => f x
  | none => x

/-- Abstract tensor operations used by `Generator.forward`.  The layer and
block computations come from `lib.layers` / `lib.blocks`, not under `src/`,
so they are parameters; `nets.py` only composes them. -/
structure GenOps (T : Type) where
  pixel_norm : T → T
  view_flat : T → T
  format_layer : T → T
  leakyRelu : T → T
  view_4x4 : T → T
  first_block : T → T
  block : GenBlockDesc → T → T
  toRGB : ToRGBDesc → Bool → T → T
  blend : ℚ → T → T → T
  activation : Option (T → T)

/-- The part of `Generator.forward` before the growth-block loop: optional
pixel norm, flatten, format layer + leaky ReLU, reshape to the 4×4 grid,
optional pixel norm, first block. -/
def Generator.stem {T : Type} (ops : GenOps T) (g : Generator) (x0 : T) : T :=
  let x := if g.apply_pixel_norm then ops.pixel_norm x0 else x0
  let x := ops.view_flat x
  let x := ops.leakyRelu (ops.format_layer x)
  let x := ops.view_4x4 x
  let x := if g.apply_pixel_norm then ops.pixel_norm x else x
  ops.first_block x

/-- One iteration of the growth-block loop in `Generator.forward`: run the
block, and when `alpha > 0` and the loop index equals `len(self.blocks) - 2`
(python integer arithmetic, hence the cast to `Int`), snapshot the feature map
through the second-to-last toRGB adapter with `apply_upscale=True`.  The
accumulator carries the feature map and the optional local `x_prev`. -/
def Generator.loop_step {T : Type} (ops : GenOps T) (g : Generator)
    (acc : T × Option T) (ib : Nat × GenBlockDesc) : T × Option T :=
  (ops.block ib.2 acc.1,
   if 0 < g.alpha ∧ (ib.1 : Int) = (g.blocks.length : Int) - 2 then
     (penult g.toRGB_blocks).map (fun r => ops.toRGB r true (ops.block ib.2 acc.1))
   else acc.2)

/-- `Generator.forward`: stem, optional pre-loop snapshot (when exactly one
growth block exists and `alpha > 0`), the growth-block loop, projection
through the last toRGB adapter, the blend `alpha * x_prev + (1 - alpha) * x`
when `alpha > 0`, and the optional final activation.  `none` models a raised
exception: an out-of-range `[-1]` / `[-2]` index (`IndexError`) or the blend
reading the local `x_prev` when no snapshot assignment ran (`NameError`). -/
def Generator.forward {T : Type} (ops : GenOps T) (g : Generator) (x0 : T) :
    Option T :=
  let x := Generator.stem ops g x0
  let xp0 : Option T :=
    if 0 < g.alpha ∧ g.blocks.length = 1 then
      (penult g.toRGB_blocks).map (fun r => ops.toRGB r true x)
    else none
  let st := (List.enumFrom 0 g.blocks).foldl (Generator.loop_step ops g) (x, xp0)
  match g.toRGB_blocks.getLast? with
  | none => none
  | some lastRGB =>
    let y := ops.toRGB lastRGB false st.1
    let blended : Option T :=
      if 0 < g.alpha then
        match st.2 with
        | some xp => some (ops.blend g.alpha xp y)
        | none => none
      else some y
    blended.map (applyActivation ops.activation)

/-- The spec's unblended generator output ("the unblended highest-resolution
toRGB projection"): stem, all growth blocks in order, last toRGB adapter,
optional activation — no snapshot and no blend step. -/
def Generator.forward_noblend {T : Type} (ops : GenOps T) (g : Generator)
    (x0 : T) : Option T :=
  let x := Generator.stem ops g x0
  let x := g.blocks.foldl (fun x b => ops.block b x) x
  match g.toRGB_blocks.getLast? with
  | none => none
  | some lastRGB => some (applyActivation ops.activation (ops.toRGB lastRGB false x))

/-- Abstract tensor operations used by `Discriminator.forward`. -/
structure DisOps (T : Type) where
  fromRGB : FromRGBDesc → Bool → T → T
  block : DisBlockDesc → T → T
  minibatch_block : T → T
  decision_layer : T → T
  blend : ℚ → T → T → T

/-- One iteration of the reversed growth-block loop in
`Discriminator.forward`: run the block; if `apply_merge` is still set, blend
`alpha * y + (1 - alpha) * x` and clear the flag.  Reading `y` when the blend
branch was never assigned is a `NameError`, modelled by `none`. -/
def Discriminator.loop_step {T : Type} (ops : DisOps T) (alpha : ℚ)
    (y : Option T) (acc : Option (T × Bool)) (b : DisBlockDesc) :
    Option (T × Bool) :=
  acc.bind (fun xa =>
    let x := ops.block b xa.1
    if xa.2 then
      match y with
      | some yv => some (ops.blend alpha yv x, false)
      | none => none
    else some (x, xa.2))

/-- `Discriminator.forward`: optional blend branch `y` (downsampled input
through the second-to-last fromRGB adapter), projection through the last
fromRGB adapter, the reversed growth-block loop with its one-shot
`apply_merge` flag (set only when `alpha > 0` and `len(self.blocks) > 1`),
the terminal minibatch block, and the decision layer.  Returns the pair
`(out, x)` the code returns when `get_feature` is set; the score-only call
reads the first component. -/
def Discriminator.forward {T : Type} (ops : DisOps T) (d : Discriminator)
    (x0 : T) : Option (T × T) :=
  let y : Option T :=
    if 0 < d.alpha ∧ 1 < d.fromRGB_blocks.length then
      (penult d.fromRGB_blocks).map (fun r => ops.fromRGB r true x0)
    else none
  match d.fromRGB_blocks.getLast? with
  | none => none
  | some lastRGB =>
    let x := ops.fromRGB lastRGB false x0
    let am : Bool := if 0 < d.alpha ∧ 1 < d.blocks.length then true else false
    let st := d.blocks.reverse.foldl (Discriminator.loop_step ops d.alpha y)
      (some (x, am))
    st.map (fun xa => (ops.decision_layer (ops.minibatch_block xa.1),
                       ops.minibatch_block xa.1))

/-- The spec's discriminator score "computed with no blend branch at all":
last fromRGB adapter, all growth blocks in reverse order, terminal block,
decision layer. -/
def Discriminator.forward_noblend {T : Type} (ops : DisOps T)
    (d : Discriminator) (x0 : T) : Option (T × T) :=
  match d.fromRGB_blocks.getLast? with
  | none => none
  | some lastRGB =>
    let x := ops.fromRGB lastRGB false x0
    let x := d.blocks.reverse.foldl (fun x b => ops.block b x) x
    some (ops.decision_layer (ops.minibatch_block x), ops.minibatch_block x)

/-- A concrete evaluation domain over `Nat` whose operations are mutually
distinguishable, used to evaluate the generator forward pass on concrete
states. -/
def natGenOps : GenOps Nat where
  pixel_norm := fun x => 2 * x + 1
  view_flat := fun x => x
  format_layer := fun x => 3 * x + 1
  leakyRelu := fun x => x + 1
  view_4x4 := fun x => x
  first_block := fun x => 5 * x + 2
  block := fun b x => 7 * x + b.new_depth
  toRGB := fun r u x => if u then 11 * x + r.depth else 13 * x + r.depth
  blend := fun _ xp x => 1000000 * xp + x + 17
  activation := none

/-- A concrete evaluation domain over `Nat` for the discriminator forward
pass. -/
def natDisOps : DisOps Nat where
  fromRGB := fun r dn x => if dn then 11 * x + r.depth else 13 * x + r.depth
  block := fun b x => 7 * x + b.prev_depth
  minibatch_block := fun x => 5 * x + 2
  decision_layer := fun x => 3 * x + 1
  blend := fun _ y x => 1000000 * y + x + 17

/-- A tensor shape `(batch, channels, height, width)`. -/
structure Shape where
  batch : Nat
  channels : Nat
  height : Nat
  width : Nat
  deriving Repr, DecidableEq

/-- Modelled from the spec: `lib.blocks.ProgressiveGeneratorBlock` is not
under `src/`; §4.3 gives its shape behaviour: depth `prev_depth` in, depth
`new_depth` out, spatial size doubled except for the first block.  A channel
mismatch is a shape error. -/
def GenBlockDesc.shape (b : GenBlockDesc) : Option Shape → Option Shape :=
  fun s => s.bind (fun s =>
    if s.channels = b.prev_depth then
      if b.is_first then some { s with channels := b.new_depth }
      else some { s with
                  channels := b.new_depth
                  height := 2 * s.height
                  width := 2 * s.width }
    else none)

/-- Modelled from the spec: `lib.blocks.toRGBBlock` is not under `src/`;
§4.6 gives its shape behaviour: project `depth` channels to `output_dim`
channels, and upsample ×2 afterwards when `apply_upscale`. -/
def ToRGBDesc.shape (r : ToRGBDesc) (apply_upscale : Bool) :
    Option Shape → Option Shape :=
  fun s => s.bind (fun s =>
    if s.channels = r.depth then
      if apply_upscale then
        some { s with
               channels := r.output_dim
               height := 2 * s.height
               width := 2 * s.width }
      else some { s with channels := r.output_dim }
    else none)

/-- Shape behaviour of the blend `alpha * a + (1 - alpha) * b`: defined when
both operand shapes agree. -/
def blend_shape : ℚ → Option Shape → Option Shape → Option Shape :=
  fun _ a b => a.bind (fun sa => b.bind (fun sb =>
    if sa = sb then some sa else none))

/-- Modelled from the spec: shape behaviour of the generator pipeline pieces
that live in `lib.layers` (not under `src/`): pixel norm and leaky ReLU
preserve shape (§4.1); `x.view(-1, num_flat_features(x))` flattens to one
feature axis; the format layer maps `latent_dim` features to
`16 * first_depth` (§4.7 step 2); `x.view(b, -1, 4, 4)` reshapes to a 4×4
grid; the first block is `ProgressiveGeneratorBlock(first_depth, first_depth,
is_first=True)` as constructed in `Generator.__init__`. -/
def shapeGenOps (latent_dim first_depth : Nat) : GenOps (Option Shape) where
  pixel_norm := id
  view_flat := fun s => s.map (fun s =>
    { s with
      channels := s.channels * s.height * s.width
      height := 1
      width := 1 })
  format_layer := fun s => s.bind (fun s =>
    if s.channels = latent_dim ∧ s.height = 1 ∧ s.width = 1 then
      some { s with channels := 16 * first_depth }
    else none)
  leakyRelu := id
  view_4x4 := fun s => s.bind (fun s =>
    if s.channels % 16 = 0 ∧ s.height = 1 ∧ s.width = 1 then
      some { s with channels := s.channels / 16, height := 4, width := 4 }
    else none)
  first_block := GenBlockDesc.shape ⟨first_depth, first_depth, true⟩
  block := fun b => b.shape
  toRGB := fun r u => r.shape u
  blend := blend_shape
  activation := none

/-- Repeated `add_block` calls. -/
def Generator.grow (g : Generator) (ds : List Nat) : Generator :=
  ds.foldl Generator.add_block g

/-- The growth-block descriptors produced by growing from last depth `p`
through the successive depths `ds`. -/
def gen_descs : Nat → List Nat → List GenBlockDesc
  | _, [] => []
  | p, d :: ds => ⟨p, d, false⟩ :: gen_descs d ds

/-- A freshly constructed generator (zero growth blocks) whose alpha was set
to `1` through `set_new_alpha` — a state the code reaches because the
adapter-list guard never fires. -/
def gen_zero_blocks : Generator :=
  ((Generator.init 16 8 true 3).set_new_alpha 1).1

/-- A discriminator with exactly one growth block and alpha `1` set through
`set_new_alpha`. -/
def dis_one_block : Discriminator :=
  (((Discriminator.init 8 1 false 3).add_block 16).set_new_alpha 1).1

/-- Claim C1: the claim says `set_new_alpha` on a freshly constructed
generator/discriminator with zero growth blocks fails with a precondition
error and does not store the value.  The guard `if not self.toRGB_blocks` /
`if not self.fromRGB_blocks` tests adapter-list emptiness, but `__init__`
always appends one adapter, so on a fresh instance the call succeeds and
stores the value — contradicting the claim and the code's own error message
("Can't set an alpha layer if only the scale 0 is defined"). -/
theorem set_new_alpha_fresh_instance_succeeds :
    (Generator.init 16 8 true 3).blocks.length = 0 ∧
    (Discriminator.init 8 1 false 3).blocks.length = 0 ∧
    (Generator.init 16 8 true 3).set_new_alpha (1/2)
      = ({ Generator.init 16 8 true 3 with alpha := 1/2 }, none) ∧
    (Discriminator.init 8 1 false 3).set_new_alpha (1/2)
      = ({ Discriminator.init 8 1 false 3 with alpha := 1/2 }, none) := by
  refine ⟨rfl, rfl, ?_, ?_⟩
  · norm_num [Generator.set_new_alpha, Generator.init]
  · norm_num [Discriminator.set_new_alpha, Discriminator.init]

/-- Claim C5: for every prior state of either network, `add_block(d)` appends
`d` to the depth sequence, appends exactly one scale block parameterized by
the previous last depth and `d`, and appends exactly one toRGB/fromRGB
adapter. -/
theorem add_block_appends (g : Generator) (d : Discriminator) (nd : Nat) :
    (g.add_block nd).block_depths = g.block_depths ++ [nd] ∧
    (g.add_block nd).blocks
      = g.blocks ++ [⟨g.block_depths.getLastD 0, nd, false⟩] ∧
    (g.add_block nd).toRGB_blocks
      = g.toRGB_blocks ++ [⟨nd, g.output_dim⟩] ∧
    (g.add_block nd).toRGB_blocks.length = g.toRGB_blocks.length + 1 ∧
    (d.add_block nd).depths = d.depths ++ [nd] ∧
    (d.add_block nd).blocks = d.blocks ++ [⟨nd, d.depths.getLastD 0⟩] ∧
    (d.add_block nd).fromRGB_blocks
      = d.fromRGB_blocks ++ [⟨d.input_dim, nd⟩] ∧
    (d.add_block nd).fromRGB_blocks.length = d.fromRGB_blocks.length + 1 := by
  refine ⟨rfl, rfl, rfl, ?_, rfl, rfl, rfl, ?_⟩ <;>
    simp [Generator.add_block, Discriminator.add_block]

/-- Claim C6: `len(toRGB_blocks) = len(block_depths)` (generator) and
`len(fromRGB_blocks) = len(depths)` (discriminator) hold after construction;
`add_block` appends one element to each list, preserving the equality and
never removing or reordering anything; `set_new_alpha` leaves the depth
sequence and all lists untouched whether it succeeds or raises. -/
theorem adapter_depth_length_invariant :
    (∀ ld fd pn od, (Generator.init ld fd pn od).toRGB_blocks.length
        = (Generator.init ld fd pn od).block_depths.length) ∧
    (∀ ldep dls mb idim,
        (Discriminator.init ldep dls mb idim).fromRGB_blocks.length
          = (Discriminator.init ldep dls mb idim).depths.length) ∧
    (∀ (g : Generator) nd,
        (g.add_block nd).block_depths = g.block_depths ++ [nd] ∧
        (g.add_block nd).blocks
          = g.blocks ++ [⟨g.block_depths.getLastD 0, nd, false⟩] ∧
        (g.add_block nd).toRGB_blocks
          = g.toRGB_blocks ++ [⟨nd, g.output_dim⟩] ∧
        (g.add_block nd).toRGB_blocks.length = g.toRGB_blocks.length + 1 ∧
        (g.add_block nd).block_depths.length = g.block_depths.length + 1) ∧
    (∀ (d : Discriminator) nd,
        (d.add_block nd).depths = d.depths ++ [nd] ∧
        (d.add_block nd).blocks = d.blocks ++ [⟨nd, d.depths.getLastD 0⟩] ∧
        (d.add_block nd).fromRGB_blocks
          = d.fromRGB_blocks ++ [⟨d.input_dim, nd⟩] ∧
        (d.add_block nd).fromRGB_blocks.length
          = d.fromRGB_blocks.length + 1 ∧
        (d.add_block nd).depths.length = d.depths.length + 1) ∧
    (∀ (g : Generator) a,
        (g.set_new_alpha a).1.block_depths = g.block_depths ∧
        (g.set_new_alpha a).1.blocks = g.blocks ∧
        (g.set_new_alpha a).1.toRGB_blocks = g.toRGB_blocks) ∧
    (∀ (d : Discriminator) a,
        (d.set_new_alpha a).1.depths = d.depths ∧
        (d.set_new_alpha a).1.blocks = d.blocks ∧
        (d.set_new_alpha a).1.fromRGB_blocks = d.fromRGB_blocks) := by
  refine ⟨fun _ _ _ _ => rfl, fun _ _ _ _ => rfl,
    fun g nd => ⟨rfl, rfl, rfl, by simp [Generator.add_block],
      by simp [Generator.add_block]⟩,
    fun d nd => ⟨rfl, rfl, rfl, by simp [Discriminator.add_block],
      by simp [Discriminator.add_block]⟩,
    fun g a => ?_, fun d a => ?_⟩
  · by_cases h1 : a < 0 ∨ a > 1
    · simp [Generator.set_new_alpha, h1]
    · by_cases h2 : g.toRGB_blocks.isEmpty
      · simp [Generator.set_new_alpha, h1, h2]
      · simp [Generator.set_new_alpha, h1, h2]
  · by_cases h1 : a < 0 ∨ a > 1
    · simp [Discriminator.set_new_alpha, h1]
    · by_cases h2 : d.fromRGB_blocks.isEmpty
      · simp [Discriminator.set_new_alpha, h1, h2]
      · simp [Discriminator.set_new_alpha, h1, h2]

/-- Claim C7: `set_new_alpha` rejects any value strictly below 0 or strictly
above 1 with a `ValueError`, and accepts the boundary values 0 and 1, storing
them, on any state whose adapter list is nonempty (every constructed state). -/
theorem set_new_alpha_range (g : Generator) (d : Discriminator) (a : ℚ) :
    ((a < 0 ∨ 1 < a) →
      g.set_new_alpha a = (g, some .valueError) ∧
      d.set_new_alpha a = (d, some .valueError)) ∧
    (g.toRGB_blocks.isEmpty = false →
      g.set_new_alpha 0 = ({ g with alpha := 0 }, none) ∧
      g.set_new_alpha 1 = ({ g with alpha := 1 }, none)) ∧
    (d.fromRGB_blocks.isEmpty = false →
      d.set_new_alpha 0 = ({ d with alpha := 0 }, none) ∧
      d.set_new_alpha 1 = ({ d with alpha := 1 }, none)) := by
  refine ⟨fun h => ⟨?_, ?_⟩, fun h => ⟨?_, ?_⟩, fun h => ⟨?_, ?_⟩⟩
  · simp [Generator.set_new_alpha, h]
  · simp [Discriminator.set_new_alpha, h]
  · norm_num [Generator.set_new_alpha, h]
  · norm_num [Generator.set_new_alpha, h]
  · norm_num [Discriminator.set_new_alpha, h]
  · norm_num [Discriminator.set_new_alpha, h]

/-- Witness for C7 at a fresh generator and discriminator with `a = 2`. -/
theorem set_new_alpha_range_witness :
    ((2:ℚ) < 0 ∨ 1 < (2:ℚ)) ∧
    (Generator.init 16 8 true 3).toRGB_blocks.isEmpty = false ∧
    (Discriminator.init 8 1 false 3).fromRGB_blocks.isEmpty = false ∧
    ((Generator.init 16 8 true 3).set_new_alpha 2
        = (Generator.init 16 8 true 3, some .valueError) ∧
      (Discriminator.init 8 1 false 3).set_new_alpha 2
        = (Discriminator.init 8 1 false 3, some .valueError)) ∧
    ((Generator.init 16 8 true 3).set_new_alpha 0
        = ({ Generator.init 16 8 true 3 with alpha := 0 }, none) ∧
      (Generator.init 16 8 true 3).set_new_alpha 1
        = ({ Generator.init 16 8 true 3 with alpha := 1 }, none)) ∧
    ((Discriminator.init 8 1 false 3).set_new_alpha 0
        = ({ Discriminator.init 8 1 false 3 with alpha := 0 }, none) ∧
      (Discriminator.init 8 1 false 3).set_new_alpha 1
        = ({ Discriminator.init 8 1 false 3 with alpha := 1 }, none)) :=
  ⟨by norm_num, by decide, by decide,
    (set_new_alpha_range (Generator.init 16 8 true 3)
      (Discriminator.init 8 1 false 3) 2).1 (by norm_num),
    (set_new_alpha_range (Generator.init 16 8 true 3)
      (Discriminator.init 8 1 false 3) 2).2.1 (by decide),
    (set_new_alpha_range (Generator.init 16 8 true 3)
      (Discriminator.init 8 1 false 3) 2).2.2 (by decide)⟩

/-- Claim C8: whenever `set_new_alpha` raises (out-of-range value or the
adapter-list precondition), the object is exactly as before the call: stored
alpha, depth sequence and all block/adapter lists unchanged. -/
theorem set_new_alpha_failure_preserves_state (g : Generator)
    (d : Discriminator) (a b : ℚ)
    (hg : (g.set_new_alpha a).2 ≠ none)
    (hd : (d.set_new_alpha b).2 ≠ none) :
    (g.set_new_alpha a).1 = g ∧ (d.set_new_alpha b).1 = d := by
  constructor
  · by_cases h1 : a < 0 ∨ a > 1
    · simp [Generator.set_new_alpha, h1]
    · by_cases h2 : g.toRGB_blocks.isEmpty
      · simp [Generator.set_new_alpha, h1, h2]
      · exact absurd (by simp [Generator.set_new_alpha, h1, h2]) hg
  · by_cases h1 : b < 0 ∨ b > 1
    · simp [Discriminator.set_new_alpha, h1]
    · by_cases h2 : d.fromRGB_blocks.isEmpty
      · simp [Discriminator.set_new_alpha, h1, h2]
      · exact absurd (by simp [Discriminator.set_new_alpha, h1, h2]) hd

/-- Witness for C8 at `a = 2`, `b = -1` on fresh instances. -/
theorem set_new_alpha_failure_preserves_state_witness :
    ((Generator.init 16 8 true 3).set_new_alpha 2).2 ≠ none ∧
    ((Discriminator.init 8 1 false 3).set_new_alpha (-1)).2 ≠ none ∧
    ((Generator.init 16 8 true 3).set_new_alpha 2).1
      = Generator.init 16 8 true 3 ∧
    ((Discriminator.init 8 1 false 3).set_new_alpha (-1)).1
      = Discriminator.init 8 1 false 3 :=
  ⟨by norm_num [Generator.set_new_alpha]; exact Option.some_ne_none _,
    by norm_num [Discriminator.set_new_alpha]; exact Option.some_ne_none _,
    (set_new_alpha_failure_preserves_state (Generator.init 16 8 true 3)
      (Discriminator.init 8 1 false 3) 2 (-1)
      (by norm_num [Generator.set_new_alpha]; exact Option.some_ne_none _)
      (by norm_num [Discriminator.set_new_alpha]; exact Option.some_ne_none _)).1,
    (set_new_alpha_failure_preserves_state (Generator.init 16 8 true 3)
      (Discriminator.init 8 1 false 3) 2 (-1)
      (by norm_num [Generator.set_new_alpha]; exact Option.some_ne_none _)
      (by norm_num [Discriminator.set_new_alpha]; exact Option.some_ne_none _)).2⟩

/-- Claim C10: `get_output_size` reads the attribute `toRGBLayers`, which no
operation ever assigns (construction leaves it unset and `add_block` /
`set_new_alpha` never write it), so on every such state the call raises
`AttributeError` and never returns a size. -/
theorem get_output_size_attribute_error (g : Generator)
    (h : g.toRGBLayers = none) :
    g.get_output_size = .error .attributeError ∧
    (∀ ld fd pn od, (Generator.init ld fd pn od).toRGBLayers = none) ∧
    (∀ nd, (g.add_block nd).toRGBLayers = g.toRGBLayers) ∧
    (∀ a, ((g.set_new_alpha a).1).toRGBLayers = g.toRGBLayers) := by
  refine ⟨?_, fun _ _ _ _ => rfl, fun _ => rfl, fun a => ?_⟩
  · simp [Generator.get_output_size, h]
  · unfold Generator.set_new_alpha
    split
    · rfl
    · split <;> rfl

/-- Witness for C10 at a fresh generator. -/
theorem get_output_size_attribute_error_witness :
    (Generator.init 16 8 true 3).toRGBLayers = none ∧
    (Generator.init 16 8 true 3).get_output_size
      = .error .attributeError :=
  ⟨rfl, (get_output_size_attribute_error (Generator.init 16 8 true 3) rfl).1⟩

/-- When no loop index in the processed slice equals `len(self.blocks) - 2`
(or `alpha ≤ 0`), the generator loop only runs the blocks and leaves the
snapshot accumulator untouched. -/
theorem gen_loop_fold_no_trigger {T : Type} (ops : GenOps T) (g : Generator)
    (bs : List GenBlockDesc) (off : Nat) (x : T) (xp : Option T)
    (h : ∀ j, j < bs.length →
      ¬(0 < g.alpha ∧ ((off + j : Nat) : Int) = (g.blocks.length : Int) - 2)) :
    (List.enumFrom off bs).foldl (Generator.loop_step ops g) (x, xp)
      = (bs.foldl (fun x b => ops.block b x) x, xp) := by
  induction bs generalizing off x xp with
  | nil => rfl
  | cons b bs ih =>
    have hstep : Generator.loop_step ops g (x, xp) (off, b)
        = (ops.block b x, xp) := by
      simp only [Generator.loop_step]
      rw [if_neg (by simpa using h 0 (by simp))]
    calc (List.enumFrom off (b :: bs)).foldl (Generator.loop_step ops g) (x, xp)
        = (List.enumFrom (off + 1) bs).foldl (Generator.loop_step ops g)
            (Generator.loop_step ops g (x, xp) (off, b)) := rfl
      _ = (bs.foldl (fun x b => ops.block b x) (ops.block b x), xp) := by
          rw [hstep]
          exact ih (off + 1) (ops.block b x) xp (fun j hj => by
            have := h (j + 1) (by simpa using Nat.succ_lt_succ hj)
            simpa [Nat.add_assoc, Nat.add_comm 1 j] using this)
      _ = ((b :: bs).foldl (fun x b => ops.block b x) x, xp) := rfl

/-- When `alpha > 0` and the slice contains the trigger index
`len(self.blocks) - 2` at position `k` (with no later trigger), the generator
loop runs the blocks and stores the snapshot taken right after block `k`. -/
theorem gen_loop_fold_trigger {T : Type} (ops : GenOps T) (g : Generator)
    (bs : List GenBlockDesc) (off : Nat) (x : T) (xp : Option T) (k : Nat)
    (hα : 0 < g.alpha) (hk : k < bs.length)
    (hidx : ((off + k : Nat) : Int) = (g.blocks.length : Int) - 2)
    (hafter : ∀ j, k < j → j < bs.length →
      ((off + j : Nat) : Int) ≠ (g.blocks.length : Int) - 2) :
    (List.enumFrom off bs).foldl (Generator.loop_step ops g) (x, xp)
      = (bs.foldl (fun x b => ops.block b x) x,
         (penult g.toRGB_blocks).map (fun r => ops.toRGB r true
           ((bs.take (k + 1)).foldl (fun x b => ops.block b x) x))) := by
  induction bs generalizing off x xp k with
  | nil => exact absurd hk (by simp)
  | cons b bs ih =>
    cases k with
    | zero =>
      have hstep : Generator.loop_step ops g (x, xp) (off, b)
          = (ops.block b x, (penult g.toRGB_blocks).map
              (fun r => ops.toRGB r true (ops.block b x))) := by
        simp only [Generator.loop_step]
        rw [if_pos ⟨hα, by simpa using hidx⟩]
      calc (List.enumFrom off (b :: bs)).foldl (Generator.loop_step ops g) (x, xp)
          = (List.enumFrom (off + 1) bs).foldl (Generator.loop_step ops g)
              (Generator.loop_step ops g (x, xp) (off, b)) := rfl
        _ = (bs.foldl (fun x b => ops.block b x) (ops.block b x),
             (penult g.toRGB_blocks).map
               (fun r => ops.toRGB r true (ops.block b x))) := by
            rw [hstep]
            exact gen_loop_fold_no_trigger ops g bs (off + 1) _ _ (fun j hj hc => by
              have := hafter (j + 1) (Nat.succ_pos j)
                (by simpa using Nat.succ_lt_succ hj)
              exact this (by simpa [Nat.add_assoc, Nat.add_comm 1 j] using hc.2))
        _ = _ := rfl
    | succ k =>
      have hne : ¬(0 < g.alpha ∧ ((off + 0 : Nat) : Int)
          = (g.blocks.length : Int) - 2) := by
        rintro ⟨-, he⟩
        rw [← hidx] at he
        omega
      have hstep : Generator.loop_step ops g (x, xp) (off, b)
          = (ops.block b x, xp) := by
        simp only [Generator.loop_step]
        rw [if_neg (by simpa using hne)]
      calc (List.enumFrom off (b :: bs)).foldl (Generator.loop_step ops g) (x, xp)
          = (List.enumFrom (off + 1) bs).foldl (Generator.loop_step ops g)
              (Generator.loop_step ops g (x, xp) (off, b)) := rfl
        _ = (bs.foldl (fun x b => ops.block b x) (ops.block b x),
             (penult g.toRGB_blocks).map (fun r => ops.toRGB r true
               ((bs.take (k + 1)).foldl (fun x b => ops.block b x)
                 (ops.block b x)))) := by
            rw [hstep]
            exact ih (off + 1) (ops.block b x) xp k
              (Nat.lt_of_succ_lt_succ (by simpa using hk))
              (by simpa [Nat.add_assoc, Nat.add_comm 1 k] using hidx)
              (fun j hj hj2 => fun hc => hafter (j + 1) (Nat.succ_lt_succ hj)
                (by simpa using Nat.succ_lt_succ hj2)
                (by simpa [Nat.add_assoc, Nat.add_comm 1 j] using hc))
        _ = _ := rfl

/-- Once the merge flag is cleared (or never set), the discriminator loop
only runs the blocks. -/
theorem dis_loop_fold_no_merge {T : Type} (ops : DisOps T) (alpha : ℚ)
    (y : Option T) (bs : List DisBlockDesc) (x : T) :
    bs.foldl (Discriminator.loop_step ops alpha y) (some (x, false))
      = some (bs.foldl (fun x b => ops.block b x) x, false) := by
  induction bs generalizing x with
  | nil => rfl
  | cons b bs ih => exact ih (ops.block b x)

/-- Claim C2 (amended): with zero growth blocks and stored alpha = 0, the
generator forward pass takes no blend-snapshot step and returns exactly the
first block's output projected through the sole toRGB adapter, followed by
the optional final activation.  (The claim as stated, for any alpha in
[0,1], fails at alpha > 0: the blend step then reads the never-assigned
local `x_prev` and forward raises — see the counterexample theorem.) -/
theorem generator_forward_zero_blocks_unblended {T : Type} (ops : GenOps T)
    (g : Generator) (x0 : T) (r : ToRGBDesc)
    (hb : g.blocks = []) (ha : g.alpha = 0) (hr : g.toRGB_blocks = [r]) :
    Generator.forward ops g x0
      = some (applyActivation ops.activation
          (ops.toRGB r false (Generator.stem ops g x0))) := by
  simp [Generator.forward, hb, ha, hr]

/-- Witness for the amended C2 at a fresh generator. -/
theorem generator_forward_zero_blocks_unblended_witness :
    (Generator.init 16 8 true 3).blocks = [] ∧
    (Generator.init 16 8 true 3).alpha = 0 ∧
    (Generator.init 16 8 true 3).toRGB_blocks = [⟨8, 3⟩] ∧
    Generator.forward natGenOps (Generator.init 16 8 true 3) 0
      = some (applyActivation natGenOps.activation
          (natGenOps.toRGB ⟨8, 3⟩ false
            (Generator.stem natGenOps (Generator.init 16 8 true 3) 0))) :=
  ⟨rfl, rfl, rfl,
    generator_forward_zero_blocks_unblended natGenOps _ 0 ⟨8, 3⟩ rfl rfl rfl⟩

/-- Claim C2 counterexample: a freshly constructed generator (zero growth
blocks) whose stored alpha is 1 — a value in [0,1] the code accepts through
`set_new_alpha` — makes the forward pass reach the blend step with the local
`x_prev` never assigned: the call fails instead of returning the first
block's toRGB projection. -/
theorem generator_forward_zero_blocks_alpha_pos_fails :
    gen_zero_blocks.blocks.length = 0 ∧
    0 ≤ gen_zero_blocks.alpha ∧ gen_zero_blocks.alpha ≤ 1 ∧
    Generator.forward natGenOps gen_zero_blocks 0 = none := by
  decide

/-- Claim C3 (amended): the discriminator applies its blend exactly once,
immediately after the first block of the reverse traversal, when `alpha > 0`
and more than one growth block exists (`len(self.blocks) > 1`, i.e. at least
three fromRGB adapters).  The claim's trigger — more than one fromRGB
adapter, i.e. at least one growth block — is not sufficient: with exactly
one growth block the blend branch `y` is computed but never applied (see the
counterexample theorem). -/
theorem discriminator_forward_blend_once {T : Type} (ops : DisOps T)
    (d : Discriminator) (x0 : T) (b0 : DisBlockDesc)
    (rest : List DisBlockDesc) (r rl : FromRGBDesc)
    (hα : 0 < d.alpha) (hrev : d.blocks.reverse = b0 :: rest)
    (hrest : rest ≠ []) (hp : penult d.fromRGB_blocks = some r)
    (hlast : d.fromRGB_blocks.getLast? = some rl) :
    Discriminator.forward ops d x0
      = some
          (ops.decision_layer (ops.minibatch_block
            (rest.foldl (fun x b => ops.block b x)
              (ops.blend d.alpha (ops.fromRGB r true x0)
                (ops.block b0 (ops.fromRGB rl false x0))))),
           ops.minibatch_block
            (rest.foldl (fun x b => ops.block b x)
              (ops.blend d.alpha (ops.fromRGB r true x0)
                (ops.block b0 (ops.fromRGB rl false x0))))) := by
  have hf2 : 1 < d.fromRGB_blocks.length := by
    by_contra hle
    have hnone : d.fromRGB_blocks.reverse.get? 1 = none :=
      List.get?_eq_none.mpr (by simp only [List.length_reverse]; omega)
    simp only [penult, hnone] at hp
    cases hp
  have hb2 : 1 < d.blocks.length := by
    have hlen : d.blocks.length = rest.length + 1 := by
      rw [← List.length_reverse, hrev]
      simp
    cases rest with
    | nil => exact absurd rfl hrest
    | cons c cs => simp [hlen]
  simp only [Discriminator.forward, hlast]
  rw [if_pos ⟨hα, hf2⟩, hp]
  rw [if_pos ⟨hα, hb2⟩]
  rw [hrev, List.foldl_cons]
  rw [show Discriminator.loop_step ops d.alpha
      ((some r).map (fun r => ops.fromRGB r true x0))
      (ops.fromRGB rl false x0, true) b0
      = some (ops.blend d.alpha (ops.fromRGB r true x0)
          (ops.block b0 (ops.fromRGB rl false x0)), false) from rfl]
  rw [dis_loop_fold_no_merge]
  rfl

/-- Witness for the amended C3: two growth blocks, alpha 1. -/
theorem discriminator_forward_blend_once_witness :
    (0 : ℚ) < 1 ∧
    Discriminator.forward natDisOps
        ((((Discriminator.init 8 1 false 3).add_block 16).add_block 32).set_new_alpha 1).1 0
      = some
          (natDisOps.decision_layer (natDisOps.minibatch_block
            ([(⟨16, 8⟩ : DisBlockDesc)].foldl (fun x b => natDisOps.block b x)
              (natDisOps.blend 1 (natDisOps.fromRGB ⟨3, 16⟩ true 0)
                (natDisOps.block ⟨32, 16⟩ (natDisOps.fromRGB ⟨3, 32⟩ false 0))))),
           natDisOps.minibatch_block
            ([(⟨16, 8⟩ : DisBlockDesc)].foldl (fun x b => natDisOps.block b x)
              (natDisOps.blend 1 (natDisOps.fromRGB ⟨3, 16⟩ true 0)
                (natDisOps.block ⟨32, 16⟩ (natDisOps.fromRGB ⟨3, 32⟩ false 0))))) := by
  constructor
  · norm_num
  · exact discriminator_forward_blend_once natDisOps _ 0 ⟨32, 16⟩ [⟨16, 8⟩]
      ⟨3, 16⟩ ⟨3, 32⟩ (by decide) (by decide) (by decide) (by decide)
        (by decide)

/-- Claim C3 counterexample: with exactly one growth block (two fromRGB
adapters) and alpha 1 > 0, the discriminator computes the blend branch but
never applies it: the output equals the no-blend output and differs from the
blend-once output the claim prescribes. -/
theorem discriminator_forward_one_block_skips_blend :
    0 < dis_one_block.alpha ∧
    1 < dis_one_block.fromRGB_blocks.length ∧
    Discriminator.forward natDisOps dis_one_block 0
      = Discriminator.forward_noblend natDisOps dis_one_block 0 ∧
    Discriminator.forward natDisOps dis_one_block 0
      ≠ some (natDisOps.decision_layer (natDisOps.minibatch_block
            (natDisOps.blend dis_one_block.alpha
              (natDisOps.fromRGB ⟨3, 8⟩ true 0)
              (natDisOps.block ⟨16, 8⟩ (natDisOps.fromRGB ⟨3, 16⟩ false 0)))),
          natDisOps.minibatch_block
            (natDisOps.blend dis_one_block.alpha
              (natDisOps.fromRGB ⟨3, 8⟩ true 0)
              (natDisOps.block ⟨16, 8⟩ (natDisOps.fromRGB ⟨3, 16⟩ false 0)))) := by
  decide

/-- Claim C4: with stored alpha = 0, the generator forward output equals the
unblended highest-resolution toRGB projection exactly, and the discriminator
forward output equals the score computed with no blend branch at all. -/
theorem forward_alpha_zero_unblended {T U : Type} (gops : GenOps T)
    (dops : DisOps U) (g : Generator) (d : Discriminator) (x : T) (z : U)
    (hg : g.alpha = 0) (hd : d.alpha = 0) :
    Generator.forward gops g x = Generator.forward_noblend gops g x ∧
    Discriminator.forward dops d z = Discriminator.forward_noblend dops d z := by
  constructor
  · cases hgl : g.toRGB_blocks.getLast? with
    | none => simp [Generator.forward, Generator.forward_noblend, hgl]
    | some lastRGB =>
      simp only [Generator.forward, Generator.forward_noblend, hgl]
      rw [if_neg (show ¬(0 < g.alpha ∧ g.blocks.length = 1) by simp [hg])]
      rw [gen_loop_fold_no_trigger gops g g.blocks 0 _ none
        (fun j hj hc => by rw [hg] at hc; exact absurd hc.1 (lt_irrefl 0))]
      rw [if_neg (show ¬(0 < g.alpha) by simp [hg])]
      rfl
  · cases hdl : d.fromRGB_blocks.getLast? with
    | none => simp [Discriminator.forward, Discriminator.forward_noblend, hdl]
    | some lastRGB =>
      simp only [Discriminator.forward, Discriminator.forward_noblend, hdl]
      rw [if_neg (show ¬(0 < d.alpha ∧ 1 < d.fromRGB_blocks.length)
        by simp [hd])]
      rw [if_neg (show ¬(0 < d.alpha ∧ 1 < d.blocks.length) by simp [hd])]
      rw [dis_loop_fold_no_merge]
      rfl

/-- Witness for C4 at fresh instances (stored alpha 0). -/
theorem forward_alpha_zero_unblended_witness :
    (Generator.init 16 8 true 3).alpha = 0 ∧
    (Discriminator.init 8 1 false 3).alpha = 0 ∧
    Generator.forward natGenOps (Generator.init 16 8 true 3) 0
      = Generator.forward_noblend natGenOps (Generator.init 16 8 true 3) 0 ∧
    Discriminator.forward natDisOps (Discriminator.init 8 1 false 3) 0
      = Discriminator.forward_noblend natDisOps
          (Discriminator.init 8 1 false 3) 0 :=
  ⟨rfl, rfl,
    (forward_alpha_zero_unblended natGenOps natDisOps (Generator.init 16 8 true 3)
      (Discriminator.init 8 1 false 3) 0 0 rfl rfl).1,
    (forward_alpha_zero_unblended natGenOps natDisOps (Generator.init 16 8 true 3)
      (Discriminator.init 8 1 false 3) 0 0 rfl rfl).2⟩

/-- The last element of `l ++ [a]` with any default is `a`. -/
theorem getLastD_concat {α : Type} (l : List α) (a d : α) :
    (l ++ [a]).getLastD d = a := by
  simp [List.getLastD_eq_getLast?, List.getLast?_concat]

/-- The second-to-last element of `l ++ [a, c]` is `a`. -/
theorem penult_append_two {α : Type} (l : List α) (a c : α) :
    penult (l ++ [a, c]) = some a := by
  simp [penult, List.reverse_append]

/-- `gen_descs` produces one block descriptor per appended depth. -/
theorem gen_descs_length (p : Nat) (ds : List Nat) :
    (gen_descs p ds).length = ds.length := by
  induction ds generalizing p with
  | nil => rfl
  | cons dd ds ih => simp [gen_descs, ih]

/-- Taking a prefix of the generated descriptors is generating from the
depth prefix. -/
theorem gen_descs_take (p : Nat) (ds : List Nat) (k : Nat) :
    (gen_descs p ds).take k = gen_descs p (ds.take k) := by
  induction ds generalizing p k with
  | nil => simp [gen_descs]
  | cons dd ds ih =>
    cases k with
    | zero => simp [gen_descs]
    | succ k => simp [gen_descs, ih]

/-- Fields of a generator grown through repeated `add_block` calls: blocks,
depths and adapters accumulate by appending; the scalar fields persist. -/
theorem grow_fields (g : Generator) (ds : List Nat) :
    ((g.grow ds).blocks
        = g.blocks ++ gen_descs (g.block_depths.getLastD 0) ds) ∧
    ((g.grow ds).block_depths = g.block_depths ++ ds) ∧
    ((g.grow ds).toRGB_blocks
        = g.toRGB_blocks ++ ds.map (fun dd => ⟨dd, g.output_dim⟩)) ∧
    ((g.grow ds).output_dim = g.output_dim) ∧
    ((g.grow ds).alpha = g.alpha) ∧
    ((g.grow ds).apply_pixel_norm = g.apply_pixel_norm) := by
  induction ds generalizing g with
  | nil => simp [Generator.grow, gen_descs]
  | cons dd ds ih =>
    obtain ⟨h1, h2, h3, h4, h5, h6⟩ := ih (g.add_block dd)
    have hg : g.grow (dd :: ds) = (g.add_block dd).grow ds := rfl
    refine ⟨?_, ?_, ?_, ?_, ?_, ?_⟩
    · rw [hg, h1]
      simp [Generator.add_block, getLastD_concat, gen_descs]
    · rw [hg, h2]
      simp [Generator.add_block]
    · rw [hg, h3]
      simp [Generator.add_block]
    · rw [hg, h4]; rfl
    · rw [hg, h5]; rfl
    · rw [hg, h6]; rfl

/-- Shape of the generator stem on a well-shaped latent batch: a
`first_depth`-channel 4×4 feature map. -/
theorem stem_shape (latent fd : Nat) (g : Generator) (b : Nat) :
    Generator.stem (shapeGenOps latent fd) g (some ⟨b, latent, 1, 1⟩)
      = some ⟨b, fd, 4, 4⟩ := by
  have h16 : 16 * fd / 16 = fd := by omega
  simp [Generator.stem, shapeGenOps, GenBlockDesc.shape, Nat.mul_mod_right, h16]

/-- Shape of running a chained descriptor list: the channel count becomes the
last appended depth and each block doubles the spatial size. -/
theorem gen_descs_run_shape (latent fd p b h w : Nat) (ds : List Nat) :
    (gen_descs p ds).foldl (fun x blk => (shapeGenOps latent fd).block blk x)
        (some ⟨b, p, h, w⟩)
      = some ⟨b, ds.getLastD p, h * 2 ^ ds.length, w * 2 ^ ds.length⟩ := by
  induction ds generalizing p h w with
  | nil => simp [gen_descs]
  | cons dd ds ih =>
    simp only [gen_descs, List.foldl_cons]
    rw [show (shapeGenOps latent fd).block ⟨p, dd, false⟩ (some ⟨b, p, h, w⟩)
        = some ⟨b, dd, 2 * h, 2 * w⟩ by simp [shapeGenOps, GenBlockDesc.shape]]
    rw [ih dd (2 * h) (2 * w)]
    rw [show (dd :: ds).getLastD p = ds.getLastD dd from List.getLastD_cons p dd ds]
    rw [List.length_cons]
    rw [show h * 2 ^ (ds.length + 1) = 2 * h * 2 ^ ds.length by rw [pow_succ]; ring]
    rw [show w * 2 ^ (ds.length + 1) = 2 * w * 2 ^ ds.length by rw [pow_succ]; ring]

/-- The last toRGB adapter of a grown generator carries the last depth. -/
theorem getLast?_cons_map (fd od : Nat) (ds : List Nat) :
    ((⟨fd, od⟩ : ToRGBDesc) :: ds.map (fun dd => ⟨dd, od⟩)).getLast?
      = some ⟨ds.getLastD fd, od⟩ := by
  induction ds generalizing fd with
  | nil => rfl
  | cons dd ds ih =>
    rw [show ((⟨fd, od⟩ : ToRGBDesc) :: (dd :: ds).map (fun dd => ⟨dd, od⟩))
        = (⟨fd, od⟩ : ToRGBDesc) :: (⟨dd, od⟩ : ToRGBDesc)
            :: ds.map (fun dd => ⟨dd, od⟩) from rfl]
    rw [List.getLast?_cons_cons]
    rw [ih dd]
    rw [show (dd :: ds).getLastD fd = ds.getLastD dd from
      List.getLastD_cons fd dd ds]

/-- Generator forward shape, no-blend path (`alpha ≤ 0`): the output is the
final toRGB projection of the fully grown feature map. -/
theorem generator_forward_shape_noalpha (latent fd od : Nat) (ds : List Nat)
    (g : Generator) (b : Nat)
    (hbl : g.blocks = gen_descs fd ds)
    (hrgb : g.toRGB_blocks = ⟨fd, od⟩ :: ds.map (fun dd => ⟨dd, od⟩))
    (hα : ¬ 0 < g.alpha) :
    Generator.forward (shapeGenOps latent fd) g (some ⟨b, latent, 1, 1⟩)
      = some (some ⟨b, od, 4 * 2 ^ ds.length, 4 * 2 ^ ds.length⟩) := by
  have hgl : g.toRGB_blocks.getLast? = some ⟨ds.getLastD fd, od⟩ := by
    rw [hrgb, getLast?_cons_map]
  simp only [Generator.forward, hgl]
  rw [if_neg (show ¬(0 < g.alpha ∧ g.blocks.length = 1) from
    fun hc => hα hc.1)]
  rw [hbl]
  rw [gen_loop_fold_no_trigger (shapeGenOps latent fd) g (gen_descs fd ds) 0
    _ none (fun j hj hc => absurd hc.1 hα)]
  rw [stem_shape, gen_descs_run_shape]
  rw [if_neg hα]
  simp [shapeGenOps, ToRGBDesc.shape, applyActivation]

/-- Generator forward shape with `alpha > 0` and exactly one growth block:
the pre-loop snapshot and the final projection agree on an 8×8 shape and the
blend is well-formed. -/
theorem generator_forward_shape_one_block (latent fd od dl : Nat)
    (g : Generator) (b : Nat)
    (hbl : g.blocks = gen_descs fd [dl])
    (hrgb : g.toRGB_blocks = ⟨fd, od⟩ :: [dl].map (fun dd => ⟨dd, od⟩))
    (hα : 0 < g.alpha) :
    Generator.forward (shapeGenOps latent fd) g (some ⟨b, latent, 1, 1⟩)
      = some (some ⟨b, od, 8, 8⟩) := by
  have hlen : g.blocks.length = 1 := by rw [hbl]; rfl
  have hgl : g.toRGB_blocks.getLast? = some ⟨dl, od⟩ := by
    rw [hrgb, getLast?_cons_map]; rfl
  have hpen : penult g.toRGB_blocks = some ⟨fd, od⟩ := by
    rw [hrgb]; simp [penult]
  simp only [Generator.forward, hgl]
  rw [if_pos (show 0 < g.alpha ∧ g.blocks.length = 1 from ⟨hα, hlen⟩)]
  rw [stem_shape, hpen]
  rw [hbl]
  rw [gen_loop_fold_no_trigger (shapeGenOps latent fd) g (gen_descs fd [dl]) 0
    _ _ (fun j hj hc => by
      rw [hlen] at hc
      have := hc.2
      omega)]
  rw [gen_descs_run_shape]
  rw [if_pos hα]
  simp [shapeGenOps, ToRGBDesc.shape, blend_shape, applyActivation, gen_descs]

/-- Generator forward shape with `alpha > 0` and at least two growth blocks:
the in-loop snapshot at index `n - 2` upscales to the final resolution and
the blend is well-formed. -/
theorem generator_forward_shape_many_blocks (latent fd od dm dl : Nat)
    (t1 : List Nat) (g : Generator) (b : Nat)
    (hbl : g.blocks = gen_descs fd (t1 ++ [dm, dl]))
    (hrgb : g.toRGB_blocks
      = ⟨fd, od⟩ :: (t1 ++ [dm, dl]).map (fun dd => ⟨dd, od⟩))
    (hα : 0 < g.alpha) :
    Generator.forward (shapeGenOps latent fd) g (some ⟨b, latent, 1, 1⟩)
      = some (some ⟨b, od, 4 * 2 ^ (t1.length + 2),
          4 * 2 ^ (t1.length + 2)⟩) := by
  have hsplit : t1 ++ [dm, dl] = (t1 ++ [dm]) ++ [dl] := by simp
  have hlen : g.blocks.length = t1.length + 2 := by
    rw [hbl, gen_descs_length]; simp
  have hld : (t1 ++ [dm, dl]).getLastD fd = dl := by
    rw [hsplit]; exact getLastD_concat _ _ _
  have hgl : g.toRGB_blocks.getLast? = some ⟨dl, od⟩ := by
    rw [hrgb, getLast?_cons_map, hld]
  have hpen : penult g.toRGB_blocks = some ⟨dm, od⟩ := by
    rw [hrgb]
    rw [show (⟨fd, od⟩ : ToRGBDesc) :: (t1 ++ [dm, dl]).map
          (fun dd => ⟨dd, od⟩)
        = (⟨fd, od⟩ :: t1.map (fun dd => (⟨dd, od⟩ : ToRGBDesc)))
            ++ [⟨dm, od⟩, ⟨dl, od⟩] by simp]
    exact penult_append_two _ _ _
  have htake : (t1 ++ [dm, dl]).take (t1.length + 1) = t1 ++ [dm] := by
    rw [hsplit]; exact List.take_left' (by simp)
  simp only [Generator.forward, hgl]
  rw [if_neg (show ¬(0 < g.alpha ∧ g.blocks.length = 1) from fun hc => by
    rw [hlen] at hc
    omega)]
  rw [hbl]
  rw [gen_loop_fold_trigger (shapeGenOps latent fd) g
    (gen_descs fd (t1 ++ [dm, dl])) 0 _ none t1.length hα
    (by rw [gen_descs_length]; simp)
    (by rw [hlen]; omega)
    (fun j hj hj2 => by
      rw [gen_descs_length] at hj2
      simp at hj2
      rw [hlen]
      omega)]
  rw [stem_shape]
  rw [gen_descs_run_shape latent fd fd b 4 4 (t1 ++ [dm, dl])]
  rw [gen_descs_take, htake]
  rw [gen_descs_run_shape latent fd fd b 4 4 (t1 ++ [dm])]
  rw [hpen]
  rw [if_pos hα]
  have hml : (t1 ++ [dm]).getLastD fd = dm := getLastD_concat _ _ _
  have hmlen : (t1 ++ [dm]).length = t1.length + 1 := by simp
  have hdlen : (t1 ++ [dm, dl]).length = t1.length + 2 := by simp
  rw [hml, hmlen, hld, hdlen]
  have harith : 2 * (4 * 2 ^ (t1.length + 1)) = 4 * 2 ^ (t1.length + 2) := by
    rw [pow_succ]
    ring
  simp [shapeGenOps, ToRGBDesc.shape, blend_shape, applyActivation, harith]

/-- Claim C9 (amended): for a generator grown by `n` `add_block` calls with
stored alpha in [0,1] and — when alpha > 0 — at least one growth block, the
forward pass on a latent batch of size `b` returns a tensor shaped
`(b, output_dim, side, side)` with `side = 4 * 2 ^ n` (side 4 at zero growth
blocks, side 32 at three).  As stated, the claim also covers zero growth
blocks with alpha > 0, where the forward pass instead fails on the unbound
blend snapshot: see the counterexample theorem. -/
theorem generator_forward_output_shape (latent fd : Nat) (pn : Bool)
    (od : Nat) (ds : List Nat) (a : ℚ) (b : Nat)
    (ha0 : 0 ≤ a) (ha1 : a ≤ 1) (hpos : 0 < a → ds ≠ []) :
    Generator.forward (shapeGenOps latent fd)
        { (Generator.init latent fd pn od).grow ds with alpha := a }
        (some ⟨b, latent, 1, 1⟩)
      = some (some ⟨b, od, 4 * 2 ^ ds.length, 4 * 2 ^ ds.length⟩) := by
  have hbl : ({ (Generator.init latent fd pn od).grow ds with
      alpha := a } : Generator).blocks = gen_descs fd ds := by
    show ((Generator.init latent fd pn od).grow ds).blocks = _
    rw [(grow_fields _ _).1]
    simp [Generator.init]
  have hrgb : ({ (Generator.init latent fd pn od).grow ds with
      alpha := a } : Generator).toRGB_blocks
      = ⟨fd, od⟩ :: ds.map (fun dd => ⟨dd, od⟩) := by
    show ((Generator.init latent fd pn od).grow ds).toRGB_blocks = _
    rw [(grow_fields _ _).2.2.1]
    simp [Generator.init]
  by_cases hα : 0 < a
  · have hne := hpos hα
    rcases List.eq_nil_or_concat ds with rfl | ⟨t, dl, hds⟩
    · exact absurd rfl hne
    · rw [List.concat_eq_append] at hds
      subst hds
      rcases List.eq_nil_or_concat t with rfl | ⟨t1, dm, hts⟩
      · simpa using generator_forward_shape_one_block latent fd od dl
          { (Generator.init latent fd pn od).grow ([] ++ [dl]) with
            alpha := a } b
          (by simpa using hbl) (by simpa using hrgb)
          (show (0 : ℚ) < a from hα)
      · rw [List.concat_eq_append] at hts
        subst hts
        have hmany := generator_forward_shape_many_blocks latent fd od dm dl
          t1
          { (Generator.init latent fd pn od).grow ((t1 ++ [dm]) ++ [dl]) with
            alpha := a } b
          (by simpa [List.append_assoc] using hbl)
          (by simpa [List.append_assoc] using hrgb)
          (show (0 : ℚ) < a from hα)
        simpa using hmany
  · exact generator_forward_shape_noalpha latent fd od ds
      { (Generator.init latent fd pn od).grow ds with alpha := a } b hbl hrgb
      (show ¬ (0 : ℚ) < a from hα)

/-- Witness for the amended C9: three growth blocks, alpha 1, batch 2 — the
output is shaped `(2, 3, 32, 32)`. -/
theorem generator_forward_output_shape_witness :
    (0 : ℚ) ≤ 1 ∧ (1 : ℚ) ≤ 1 ∧
    (0 < (1 : ℚ) → ([8, 4, 4] : List Nat) ≠ []) ∧
    Generator.forward (shapeGenOps 16 8)
        { (Generator.init 16 8 true 3).grow [8, 4, 4] with alpha := 1 }
        (some ⟨2, 16, 1, 1⟩)
      = some (some ⟨2, 3, 32, 32⟩) := by
  refine ⟨by norm_num, le_refl 1, fun _ => by simp, ?_⟩
  have h := generator_forward_output_shape 16 8 true 3 [8, 4, 4] 1 2
    (by norm_num) (le_refl 1) (fun _ => by simp)
  simpa using h

/-- Claim C9 counterexample: zero growth blocks with stored alpha 1 (a value
in [0,1] that `set_new_alpha` accepts): on a well-shaped latent batch the
forward pass fails on the unbound blend snapshot instead of returning a
`(b, output_dim, 4, 4)` tensor. -/
theorem generator_forward_shape_zero_blocks_alpha_pos_fails :
    gen_zero_blocks.blocks.length = 0 ∧
    Generator.forward (shapeGenOps 16 8) gen_zero_blocks
        (some ⟨2, 16, 1, 1⟩) = none := by
  decide

end PGGAN
